import Mathlib

/-!
Verification development for the `fitbit` Go client library.

The library's core is the OAuth 2.0 Authorization Code + PKCE flow:
`Client.AuthCodeURL` (authorization URL construction with a SHA-256-based
PKCE code challenge), `Client.Link` (authorization-code-to-token exchange),
`tokenRefresher.Token` (refresh-token grant with a caller-supplied
persistence hook), plus a locale-to-unit lookup table.

The Go source is embedded shallowly: pure helpers become Lean functions,
byte strings become `List Nat`, the stateful token refresher becomes an
explicit state-passing function that also reports the token-endpoint
requests it issues, network calls (`retrieveToken`, `oauth2.Exchange`) are
parameters supplying the call's outcome, and Go's two-value
`(result, error)` returns become pairs of options. Machine 32-bit
arithmetic in SHA-256 is `Nat` reduced modulo `2 ^ 32`.
-/

namespace Fitbit

/-! ## SHA-256 (Go `crypto/sha256.Sum256`), over byte lists -/

/-- Reduce a natural number to a 32-bit word. -/
def w32 (n : Nat) : Nat := n % 4294967296

/-- Right rotation of a 32-bit word by `n` bits. -/
def rotr (n x : Nat) : Nat := w32 ((x >>> n) ||| (x <<< (32 - n)))

/-- SHA-256 choice function. -/
def ch (e f g : Nat) : Nat := (e &&& f) ^^^ ((e ^^^ 4294967295) &&& g)

/-- SHA-256 majority function. -/
def maj (a b c : Nat) : Nat := (a &&& b) ^^^ (a &&& c) ^^^ (b &&& c)

/-- SHA-256 big sigma 0. -/
def bsig0 (x : Nat) : Nat := rotr 2 x ^^^ rotr 13 x ^^^ rotr 22 x

/-- SHA-256 big sigma 1. -/
def bsig1 (x : Nat) : Nat := rotr 6 x ^^^ rotr 11 x ^^^ rotr 25 x

/-- SHA-256 small sigma 0. -/
def ssig0 (x : Nat) : Nat := rotr 7 x ^^^ rotr 18 x ^^^ (x >>> 3)

/-- SHA-256 small sigma 1. -/
def ssig1 (x : Nat) : Nat := rotr 17 x ^^^ rotr 19 x ^^^ (x >>> 10)

/-- The 64 SHA-256 round constants (FIPS 180-4, in decimal). -/
def sha256K : List Nat :=
  [1116352408, 1899447441, 3049323471, 3921009573, 961987163, 1508970993,
   2453635748, 2870763221, 3624381080, 310598401, 607225278, 1426881987,
   1925078388, 2162078206, 2614888103, 3248222580, 3835390401, 4022224774,
   264347078, 604807628, 770255983, 1249150122, 1555081692, 1996064986,
   2554220882, 2821834349, 2952996808, 3210313671, 3336571891, 3584528711,
   113926993, 338241895, 666307205, 773529912, 1294757372, 1396182291,
   1695183700, 1986661051, 2177026350, 2456956037, 2730485921, 2820302411,
   3259730800, 3345764771, 3516065817, 3600352804, 4094571909, 275423344,
   430227734, 506948616, 659060556, 883997877, 958139571, 1322822218,
   1537002063, 1747873779, 1955562222, 2024104815, 2227730452, 2361852424,
   2428436474, 2756734187, 3204031479, 3329325298]

/-- The SHA-256 initial hash state (FIPS 180-4, in decimal). -/
def sha256H0 : List Nat :=
  [1779033703, 3144134277, 1013904242, 2773480762,
   1359893119, 2600822924, 528734635, 1541459225]

/-- Encode a natural number as `k` bytes, big-endian. -/
def beBytes (k n : Nat) : List Nat :=
  match k with
  | 0 => []
  | k + 1 => (n >>> (8 * k)) % 256 :: beBytes k n

/-- SHA-256 message padding: append `0x80`, zero bytes up to 56 mod 64, then
the 64-bit big-endian bit length. -/
def sha256Pad (msg : List Nat) : List Nat :=
  msg ++ 0x80 :: List.replicate ((119 - msg.length % 64) % 64) 0 ++ beBytes 8 (msg.length * 8)

/-- Group bytes into big-endian 32-bit words. -/
def toWords : List Nat → List Nat
  | b0 :: b1 :: b2 :: b3 :: rest => (((b0 * 256 + b1) * 256 + b2) * 256 + b3) :: toWords rest
  | _ => []

/-- Extend a 16-word message block by `n` further scheduled words. -/
def extendW (ws : List Nat) : Nat → List Nat
  | 0 => ws
  | n + 1 =>
    let prior := extendW ws n
    let len := prior.length
    prior ++ [w32 (ssig1 (prior.getD (len - 2) 0) + prior.getD (len - 7) 0 +
      ssig0 (prior.getD (len - 15) 0) + prior.getD (len - 16) 0)]

/-- The full 64-entry message schedule of one 64-byte block. -/
def schedule (block : List Nat) : List Nat := extendW (toWords block) 48

/-- One SHA-256 compression round on the 8-word working state. -/
def compressStep (st : List Nat) (kw : Nat × Nat) : List Nat :=
  match st with
  | [a, b, c, d, e, f, g, h] =>
    let t1 := w32 (h + bsig1 e + ch e f g + kw.1 + kw.2)
    let t2 := w32 (bsig0 a + maj a b c)
    [w32 (t1 + t2), a, b, c, w32 (d + t1), e, f, g]
  | other => other

/-- Compress one 64-byte block into the running hash state. -/
def processBlock (hs block : List Nat) : List Nat :=
  let final := (sha256K.zip (schedule block)).foldl compressStep hs
  (hs.zip final).map (fun p => w32 (p.1 + p.2))

/-- Compress `n` consecutive 64-byte blocks into the running hash state. -/
def processBlocks (hs bytes : List Nat) : Nat → List Nat
  | 0 => hs
  | n + 1 => processBlocks (processBlock hs (bytes.take 64)) (bytes.drop 64) n

/-- SHA-256 digest of a byte list, as the list of 32 digest bytes
(Go `sha256.Sum256`). -/
def sha256 (msg : List Nat) : List Nat :=
  let padded := sha256Pad msg
  (processBlocks sha256H0 padded (padded.length / 64)).map (beBytes 4) |>.flatten

/-- FIPS 180-4 test vector: the digest of the three-byte message "abc". -/
theorem sha256_abc :
    sha256 [97, 98, 99] =
      [186, 120, 22, 191, 143, 1, 207, 234, 65, 65, 64, 222, 93, 174, 34, 35,
       176, 3, 97, 163, 150, 23, 122, 156, 180, 16, 255, 97, 242, 0, 21, 173] := by
  decide

/-! ## URL-safe base64 without padding (Go `base64.RawURLEncoding.EncodeToString`) -/

/-- The URL-safe base64 alphabet. -/
def b64urlAlphabet : List Char :=
  "ABCDEFGHIJKLMNOPQRSTUVWXYZabcdefghijklmnopqrstuvwxyz0123456789-_".data

/-- The alphabet character for a 6-bit group. -/
def b64char (n : Nat) : Char := b64urlAlphabet.getD (n % 64) 'A'

/-- URL-safe base64 of a byte list, unpadded: each 3-byte group becomes 4
characters; a trailing 1- or 2-byte group becomes 2 or 3 characters and no
`=` padding is emitted. -/
def base64RawURLEncode : List Nat → List Char
  | [] => []
  | [b1] => [b64char (b1 >>> 2), b64char ((b1 <<< 4) % 64)]
  | [b1, b2] =>
    [b64char (b1 >>> 2), b64char (((b1 <<< 4) + (b2 >>> 4)) % 64), b64char ((b2 <<< 2) % 64)]
  | b1 :: b2 :: b3 :: rest =>
    b64char (b1 >>> 2) :: b64char (((b1 <<< 4) + (b2 >>> 4)) % 64) ::
      b64char (((b2 <<< 2) + (b3 >>> 6)) % 64) :: b64char (b3 % 64) ::
      base64RawURLEncode rest

/-- URL-safe unpadded base64, as a string. -/
def base64RawURL (bs : List Nat) : String := ⟨base64RawURLEncode bs⟩

theorem b64char_mem (n : Nat) : b64char n ∈ b64urlAlphabet := by
  have h : n % 64 < b64urlAlphabet.length := Nat.mod_lt _ (by decide)
  rw [b64char, List.getD_eq_getElem _ _ h]
  exact List.getElem_mem h

theorem base64RawURLEncode_mem (bs : List Nat) :
    ∀ c ∈ base64RawURLEncode bs, c ∈ b64urlAlphabet := by
  induction bs using base64RawURLEncode.induct with
  | case1 => simp [base64RawURLEncode]
  | case2 b1 => simp [base64RawURLEncode, b64char_mem]
  | case3 b1 b2 => simp [base64RawURLEncode, b64char_mem]
  | case4 b1 b2 b3 rest ih =>
    intro c hc
    simp only [base64RawURLEncode, List.mem_cons] at hc
    rcases hc with h | h | h | h | h
    · exact h ▸ b64char_mem _
    · exact h ▸ b64char_mem _
    · exact h ▸ b64char_mem _
    · exact h ▸ b64char_mem _
    · exact ih c h

/-- The unpadded encoder never emits a padding character. -/
theorem base64RawURL_no_padding (bs : List Nat) : '=' ∉ (base64RawURL bs).data := by
  intro h
  have := base64RawURLEncode_mem bs '=' h
  revert this
  decide

/-! ## Data model -/

/-- Go `url.Values`, by its map semantics: each key holds at most one value
(the program only ever writes single-valued entries, via literals and `Set`,
which replaces). -/
def Values : Type := String → Option String

/-- Map-write with replacement (Go `url.Values.Set`). -/
def Values.set (vs : Values) (k v : String) : Values :=
  fun q => if q = k then some v else vs q

/-- A `url.Values` literal. -/
def Values.ofList (l : List (String × String)) : Values :=
  fun q => (l.find? (fun p => p.1 = q)).map Prod.snd

/-- The `CodeChallengeMethod` constant. -/
def CodeChallengeMethod : String := "S256"

/-- Split a character list around each occurrence of `sep`, keeping empty
pieces; the empty list yields one empty piece. -/
def splitOnChar (sep : Char) : List Char → List (List Char)
  | [] => [[]]
  | c :: rest =>
    if c = sep then [] :: splitOnChar sep rest
    else
      match splitOnChar sep rest with
      | [] => [[c]]
      | piece :: pieces => (c :: piece) :: pieces

/-- Go `strings.Split(s, " ")`: split around each instance of the single
space separator; an empty string yields one empty piece. -/
def stringsSplitSpace (s : String) : List String :=
  (splitOnChar ' ' s.data).map (fun cs => ⟨cs⟩)

/-- The OAuth 2.0 token retained and issued by this library (`Token`).
Expiry timestamps are integers. -/
structure Token where
  AccessToken : String
  TokenType : String
  RefreshToken : String
  Expiry : Int
  deriving DecidableEq

/-- A JSON value stored in the extra-field map of an `oauth2.Token`;
only its being a string or not matters to this program. -/
inductive ExtraVal where
  | str (s : String)
  | num (n : Int)
  | null
  deriving DecidableEq

/-- The `oauth2.Token` returned by the oauth2 library, with its raw
extra-field map. -/
structure OAuth2Token where
  AccessToken : String
  TokenType : String
  RefreshToken : String
  Expiry : Int
  raw : List (String × ExtraVal)

/-- Go `oauth2.Token.Extra`: look up an extra field; `none` models the
`nil` interface value returned for a missing key. -/
def OAuth2Token.Extra (t : OAuth2Token) (k : String) : Option ExtraVal :=
  (t.raw.find? (fun p => p.1 = k)).map Prod.snd

/-- A provider-reported structured error, carrying an error code and a
description. Modelled from the spec: `parseError` and its error struct are
not among the given sources; §7 says a parseable body yields "error code +
description". -/
structure ProviderError where
  code : String
  description : String
  deriving DecidableEq

/-- Go error values as this program distinguishes them: an
`oauth2.RetrieveError` (carrying the HTTP response status and body), an
opaque error, a parsed provider error, and `fmt.Errorf("...: %w", err)`
wrapping. -/
inductive GoError where
  | retrieveError (status : Nat) (body : String)
  | errorString (msg : String)
  | provider (e : ProviderError)
  | wrapped (ctx : String) (inner : GoError)
  deriving DecidableEq

/-- Go `errors.As` with an `*oauth2.RetrieveError` target: find a retrieve
error in the wrap chain. -/
def asRetrieveError : GoError → Option (Nat × String)
  | .retrieveError status body => some (status, body)
  | .wrapped _ inner => asRetrieveError inner
  | _ => none

/-- The application type. Modelled from the spec: the client construction
code is not among the given sources; §3 distinguishes "server-side
confidential vs. implicit/public", and the embedded code compares against
the server type (`ServerApplication`). -/
inductive ApplicationType where
  | server
  | personal
  | client
  deriving DecidableEq

/-- The client configuration. Modelled from the spec: the `Client` struct
declaration is not among the given sources; §3 lists client identifier,
client secret, endpoints, application type and debug flag, and the embedded
code also reads `oauth2Config` scopes and the optional `updateTokenFunc`
hook. The hook returns `none` for a `nil` error. -/
structure Client where
  clientID : String
  clientSecret : String
  authURL : String
  tokenURL : String
  scopes : List String
  redirectURL : String
  applicationType : ApplicationType
  debugMode : Bool
  updateTokenFunc : Option (Token → Token → Option GoError)

/-- The granted-permission set. Modelled from the spec: the `Scope` type and
`newScope` are not among the given sources; §3 says a Scope is a set of
permission names whose only queried property is membership, so it is
represented by the list of names handed to `newScope`. -/
abbrev Scope : Type := List String

/-- Build a Scope from the list of permission names. Modelled from the
spec, like `Scope` itself. -/
def newScope (names : List String) : Scope := names

/-- The result of a successful `Link` call (`LinkResponse`). -/
structure LinkResponse where
  UserID : String
  Scope : Scope
  Token : Token

/-! ## Token refresher (`tokenRefresher.Token`) -/

/-- Conversion of this library's `Token` to an `oauth2.Token`
(`Token.asOAuth2Token`, on a non-nil receiver). -/
def Token.asOAuth2Token (t : Token) : OAuth2Token :=
  { AccessToken := t.AccessToken, TokenType := t.TokenType,
    RefreshToken := t.RefreshToken, Expiry := t.Expiry, raw := [] }

/-- One token-endpoint request as issued by `retrieveToken`: the endpoint,
the client credentials and the form values. -/
structure RefreshRequest where
  tokenURL : String
  clientID : String
  clientSecret : String
  params : Values

/-- The request `tokenRefresher.Token` passes to `retrieveToken`. -/
def refreshRequest (c : Client) (lastToken : Token) : RefreshRequest :=
  { tokenURL := c.tokenURL, clientID := c.clientID, clientSecret := c.clientSecret,
    params := Values.ofList
      [("grant_type", "refresh_token"), ("refresh_token", lastToken.RefreshToken)] }

/-- Everything one `tokenRefresher.Token()` call produces: the returned
`(*oauth2.Token, error)` pair, the `lastToken` field after the call, and
the token-endpoint requests issued during the call. -/
structure RefresherOutcome where
  result : Option OAuth2Token
  err : Option GoError
  lastToken : Token
  requests : List RefreshRequest

/-- Shallow embedding of `tokenRefresher.Token()`. The state `lastToken` is
passed explicitly; `retrieve` supplies the outcome of the `retrieveToken`
network call for a given request. -/
def tokenRefresherToken (c : Client) (retrieve : RefreshRequest → Except GoError Token)
    (lastToken : Token) : RefresherOutcome :=
  let req := refreshRequest c lastToken
  match retrieve req with
  | .error e => ⟨none, some e, lastToken, [req]⟩
  | .ok token =>
    match c.updateTokenFunc with
    | some hook =>
      match hook lastToken token with
      | some e => ⟨none, some e, lastToken, [req]⟩
      | none => ⟨some token.asOAuth2Token, none, token, [req]⟩
    | none => ⟨some token.asOAuth2Token, none, token, [req]⟩

/-! ## Authorization URL construction (`Client.AuthCodeURL`) -/

/-- Go `string(bytes)` on the generator's ASCII output. -/
def stringOfBytes (bs : List Nat) : String := ⟨bs.map Char.ofNat⟩

/-- The PKCE code challenge as `AuthCodeURL` computes it:
`base64.RawURLEncoding.EncodeToString(sha256.Sum256(codeVerifier))`. -/
def authCodeChallenge (codeVerifier : List Nat) : String :=
  base64RawURL (sha256 codeVerifier)

/-- The query parameters produced by `oauth2.Config.AuthCodeURL`: the
response type and client id, then redirect URI, scope and state when
non-empty, then each `SetAuthURLParam` option applied in order via `Set`. -/
def oauth2AuthCodeURLParams (c : Client) (state : String)
    (opts : List (String × String)) : Values :=
  let v := Values.ofList [("response_type", "code"), ("client_id", c.clientID)]
  let v := if c.redirectURL ≠ "" then v.set "redirect_uri" c.redirectURL else v
  let v := if c.scopes ≠ [] then v.set "scope" (String.intercalate " " c.scopes) else v
  let v := if state ≠ "" then v.set "state" state else v
  opts.foldl (fun v p => v.set p.1 p.2) v

/-- What `Client.AuthCodeURL` returns: the authorization URL (endpoint plus
query parameters) and the state and code-verifier strings. -/
structure AuthCodeURLResult where
  endpoint : String
  params : Values
  state : String
  codeVerifier : String

/-- Shallow embedding of `Client.AuthCodeURL`. The two `randomBytes` draws
(`CSRFStateLength` and `CodeVerifierLength` bytes of the alphanumeric
alphabet) are passed in as `stateBytes` and `codeVerifierBytes`.
`oauth2.ApprovalForce` is `SetAuthURLParam("prompt", "consent")`. -/
def AuthCodeURL (c : Client) (stateBytes codeVerifierBytes : List Nat)
    (redirectURI : String) : AuthCodeURLResult :=
  let state := stringOfBytes stateBytes
  let codeChallenge := authCodeChallenge codeVerifierBytes
  let opts := [("code_challenge", codeChallenge),
               ("code_challenge_method", CodeChallengeMethod),
               ("redirect_uri", redirectURI)] ++
    (if c.debugMode then [("prompt", "consent")] else [])
  { endpoint := c.authURL, params := oauth2AuthCodeURLParams c state opts,
    state := state, codeVerifier := stringOfBytes codeVerifierBytes }

/-! ## Code exchange (`Client.Link`) -/

/-- The form values `oauth2.Config.Exchange` sends for `Client.Link`'s
call: the `authorization_code` grant defaults, then the options the method
builds (`code_verifier`, `redirect_uri`, and `client_id` for server-type
applications), applied in order via `Set`. -/
def linkTokenRequest (c : Client) (code codeVerifier reqURIString : String) : Values :=
  let v := Values.ofList [("grant_type", "authorization_code"), ("code", code)]
  let v := if c.redirectURL ≠ "" then v.set "redirect_uri" c.redirectURL else v
  let v := v.set "code_verifier" codeVerifier
  let v := v.set "redirect_uri" reqURIString
  if c.applicationType = ApplicationType.server then v.set "client_id" c.clientID else v

/-- How a `Client.Link` call ends: with the Go `(*LinkResponse, error)`
return pair, or in a panic from a failed type assertion. -/
inductive LinkOutcome where
  | ret (resp : Option LinkResponse) (err : Option GoError)
  | panicked

/-- Shallow embedding of `Client.Link`. `exchange` supplies the outcome of
the `oauth2Config.Exchange` network call for the request's form values, and
`parse` is the repository's `parseError` applied to a retrieve error's HTTP
response status and body (returning `none` where `parseError` returns
`nil`). -/
def Link (c : Client) (exchange : Values → Except GoError OAuth2Token)
    (parse : Nat → String → Option ProviderError)
    (code codeVerifier reqURIString : String) : LinkOutcome :=
  match exchange (linkTokenRequest c code codeVerifier reqURIString) with
  | .error err =>
    match asRetrieveError err with
    | some (status, body) =>
      match parse status body with
      | some e => .ret none (some (.wrapped "fitbit(oauth2): cannot fetch token" (.provider e)))
      | none => .ret none (some (.wrapped "fitbit(oauth2): cannot fetch token" err))
    | none => .ret none (some (.wrapped "fitbit(oauth2): cannot fetch token" err))
  | .ok token =>
    match token.Extra "user_id", token.Extra "scope" with
    | some (.str uid), some (.str sc) =>
      .ret (some { UserID := uid, Scope := newScope (stringsSplitSpace sc),
                   Token := { AccessToken := token.AccessToken, TokenType := token.TokenType,
                              RefreshToken := token.RefreshToken, Expiry := token.Expiry } }) none
    | _, _ => .panicked

/-! ## Localization (`localization.go`) -/

/-- The `Locale` string type. -/
abbrev Locale : Type := String

/-- The `LocaleAustralia` constant. -/
def LocaleAustralia : Locale := "en_AU"

/-- The `LocaleFrance` constant. -/
def LocaleFrance : Locale := "fr_FR"

/-- The `LocaleGermany` constant. -/
def LocaleGermany : Locale := "de_DE"

/-- The `LocaleJapan` constant. -/
def LocaleJapan : Locale := "ja_JP"

/-- The `LocaleNewZealand` constant. -/
def LocaleNewZealand : Locale := "en_NZ"

/-- The `LocaleSpain` constant. -/
def LocaleSpain : Locale := "es_ES"

/-- The `LocaleUnitedKingdom` constant. -/
def LocaleUnitedKingdom : Locale := "en_GB"

/-- The `LocaleUnitedStates` constant. -/
def LocaleUnitedStates : Locale := "en_US"

/-- The `Unit` table of measurement units. -/
structure Unit where
  Distance : String
  Elevation : String
  Height : String
  Weight : String
  BodyMeasurements : String
  Liquids : String
  BloodGlucose : String
  deriving DecidableEq

/-- The `UnitedStatesUnit` table. -/
def UnitedStatesUnit : Unit :=
  { Distance := "mile", Elevation := "ft", Height := "in", Weight := "lb",
    BodyMeasurements := "in", Liquids := "fl oz", BloodGlucose := "mg/dL" }

/-- The `UnitedKingdomUnit` table. -/
def UnitedKingdomUnit : Unit :=
  { Distance := "km", Elevation := "m", Height := "cm", Weight := "st",
    BodyMeasurements := "cm", Liquids := "ml", BloodGlucose := "mmol/l" }

/-- The `MetricUnit` table. -/
def MetricUnit : Unit :=
  { Distance := "km", Elevation := "m", Height := "cm", Weight := "kg",
    BodyMeasurements := "cm", Liquids := "ml", BloodGlucose := "mmol/l" }

/-- Shallow embedding of `getCorrespondingUnit`; the Go `switch` on a string
compares for equality case by case. -/
def getCorrespondingUnit (locale : Locale) : Unit :=
  if locale = LocaleUnitedStates then UnitedStatesUnit
  else if locale = LocaleUnitedKingdom then UnitedKingdomUnit
  else MetricUnit

/-! ## Helper lemmas -/

theorem Values.set_lookup_eq (vs : Values) (k v : String) : vs.set k v k = some v := by
  simp [Values.set]

theorem Values.set_lookup_ne (vs : Values) (k v q : String) (h : q ≠ k) :
    vs.set k v q = vs q := by
  simp [Values.set, h]

/-- Whether an extra-field lookup produced a string value; Go's
`.(string)` type assertion succeeds exactly on these. -/
def isStringVal : Option ExtraVal → Bool
  | some (.str _) => true
  | _ => false

/-! ## Claims -/

/-- C10: for every Locale value, `getCorrespondingUnit` returns one of the
three unit tables: `UnitedStatesUnit` exactly for `en_US`,
`UnitedKingdomUnit` exactly for `en_GB`, and `MetricUnit` exactly for every
other value, defined constant or not. -/
theorem getCorrespondingUnit_cases (locale : Locale) :
    (getCorrespondingUnit locale = UnitedStatesUnit ∨
     getCorrespondingUnit locale = UnitedKingdomUnit ∨
     getCorrespondingUnit locale = MetricUnit) ∧
    (getCorrespondingUnit locale = UnitedStatesUnit ↔ locale = LocaleUnitedStates) ∧
    (getCorrespondingUnit locale = UnitedKingdomUnit ↔ locale = LocaleUnitedKingdom) ∧
    (getCorrespondingUnit locale = MetricUnit ↔
      (locale ≠ LocaleUnitedStates ∧ locale ≠ LocaleUnitedKingdom)) := by
  by_cases h1 : locale = LocaleUnitedStates
  · subst h1
    refine ⟨Or.inl rfl, ?_, ?_, ?_⟩ <;>
      simp [getCorrespondingUnit, LocaleUnitedStates, LocaleUnitedKingdom,
        UnitedStatesUnit, UnitedKingdomUnit, MetricUnit]
  · by_cases h2 : locale = LocaleUnitedKingdom
    · subst h2
      refine ⟨Or.inr (Or.inl rfl), ?_, ?_, ?_⟩ <;>
        simp [getCorrespondingUnit, LocaleUnitedStates, LocaleUnitedKingdom,
          UnitedStatesUnit, UnitedKingdomUnit, MetricUnit]
    · have hval : getCorrespondingUnit locale = MetricUnit := by
        simp [getCorrespondingUnit, h1, h2]
      refine ⟨Or.inr (Or.inr hval), ?_, ?_, ?_⟩ <;>
        simp [hval, h1, h2, UnitedStatesUnit, UnitedKingdomUnit, MetricUnit]

/-- C4: the authorization URL carries `prompt=consent` exactly when the
client's debug flag is set. -/
theorem authCodeURL_prompt_consent (c : Client) (stateBytes codeVerifierBytes : List Nat)
    (redirectURI : String) :
    (AuthCodeURL c stateBytes codeVerifierBytes redirectURI).params "prompt" = some "consent" ↔
      c.debugMode = true := by
  cases hd : c.debugMode <;>
    simp only [AuthCodeURL, oauth2AuthCodeURLParams, hd, if_true, if_false,
      List.append_nil, List.cons_append, List.nil_append, List.foldl] <;>
    split_ifs <;>
    simp [Values.set, Values.ofList]

/-- C5: the token-endpoint request of a `Link` call uses the
`authorization_code` grant and carries `code`, `code_verifier` and
`redirect_uri` equal to the call's arguments, and an explicit `client_id`
exactly for server-type clients. -/
theorem link_request_params (c : Client) (code codeVerifier reqURIString : String) :
    linkTokenRequest c code codeVerifier reqURIString "grant_type" = some "authorization_code" ∧
    linkTokenRequest c code codeVerifier reqURIString "code" = some code ∧
    linkTokenRequest c code codeVerifier reqURIString "code_verifier" = some codeVerifier ∧
    linkTokenRequest c code codeVerifier reqURIString "redirect_uri" = some reqURIString ∧
    (linkTokenRequest c code codeVerifier reqURIString "client_id" = some c.clientID ↔
      c.applicationType = ApplicationType.server) := by
  cases ha : c.applicationType <;>
    simp only [linkTokenRequest, ha] <;>
    split_ifs <;>
    simp_all [Values.set, Values.ofList]

/-- The PKCE code challenge as the spec describes it. Modelled from the
spec, for comparison with the program's computation: "Computes a 256-bit
one-way hash of the verifier's raw bytes, then encodes the digest using
URL-safe base64 without padding." -/
def referenceCodeChallenge (verifier : List Nat) : String :=
  base64RawURL (sha256 verifier)

/-- C3: the code challenge `AuthCodeURL` sends equals the reference
SHA-256-plus-base64url computation of the verifier's bytes, the
computation is deterministic, and the encoding emits no `=` padding. -/
theorem authCodeURL_challenge_correct (v : List Nat) :
    authCodeChallenge v = referenceCodeChallenge v ∧
    (∀ c stateBytes redirectURI,
      (AuthCodeURL c stateBytes v redirectURI).params "code_challenge" =
        some (referenceCodeChallenge v)) ∧
    (∀ v2, v2 = v → authCodeChallenge v2 = authCodeChallenge v) ∧
    '=' ∉ (authCodeChallenge v).data := by
  refine ⟨rfl, ?_, fun v2 h => h ▸ rfl, base64RawURL_no_padding _⟩
  intro c stateBytes redirectURI
  cases hd : c.debugMode <;>
    simp only [AuthCodeURL, oauth2AuthCodeURLParams, hd, if_true, if_false,
      List.append_nil, List.cons_append, List.nil_append, List.foldl] <;>
    split_ifs <;>
    simp [Values.set, referenceCodeChallenge, authCodeChallenge]

theorem authCodeURL_challenge_correct_witness :
    authCodeChallenge [86, 120, 121, 122] = referenceCodeChallenge [86, 120, 121, 122] ∧
    (∀ c stateBytes redirectURI,
      (AuthCodeURL c stateBytes [86, 120, 121, 122] redirectURI).params "code_challenge" =
        some (referenceCodeChallenge [86, 120, 121, 122])) ∧
    (∀ v2, v2 = [86, 120, 121, 122] →
      authCodeChallenge v2 = authCodeChallenge [86, 120, 121, 122]) ∧
    '=' ∉ (authCodeChallenge [86, 120, 121, 122]).data :=
  authCodeURL_challenge_correct [86, 120, 121, 122]

/-- C8: the authorization URL is the client's authorization endpoint with
the client id, response type, scope, the redirect URI argument, the
generated state, the code challenge of the generated verifier and the
`S256` method, and the call returns the same state and verifier strings it
used. -/
theorem authCodeURL_params (c : Client) (stateBytes codeVerifierBytes : List Nat)
    (redirectURI : String) (hstate : stateBytes ≠ []) (hscopes : c.scopes ≠ []) :
    (AuthCodeURL c stateBytes codeVerifierBytes redirectURI).endpoint = c.authURL ∧
    (AuthCodeURL c stateBytes codeVerifierBytes redirectURI).params "client_id" =
      some c.clientID ∧
    (AuthCodeURL c stateBytes codeVerifierBytes redirectURI).params "response_type" =
      some "code" ∧
    (AuthCodeURL c stateBytes codeVerifierBytes redirectURI).params "scope" =
      some (String.intercalate " " c.scopes) ∧
    (AuthCodeURL c stateBytes codeVerifierBytes redirectURI).params "redirect_uri" =
      some redirectURI ∧
    (AuthCodeURL c stateBytes codeVerifierBytes redirectURI).params "state" =
      some (AuthCodeURL c stateBytes codeVerifierBytes redirectURI).state ∧
    (AuthCodeURL c stateBytes codeVerifierBytes redirectURI).params "code_challenge" =
      some (authCodeChallenge codeVerifierBytes) ∧
    (AuthCodeURL c stateBytes codeVerifierBytes redirectURI).params "code_challenge_method" =
      some CodeChallengeMethod ∧
    (AuthCodeURL c stateBytes codeVerifierBytes redirectURI).state =
      stringOfBytes stateBytes ∧
    (AuthCodeURL c stateBytes codeVerifierBytes redirectURI).codeVerifier =
      stringOfBytes codeVerifierBytes := by
  have hstate' : stringOfBytes stateBytes ≠ "" := by
    simpa [stringOfBytes, String.ext_iff] using hstate
  cases hd : c.debugMode <;>
    simp only [AuthCodeURL, oauth2AuthCodeURLParams, hd, if_true, if_false,
      List.append_nil, List.cons_append, List.nil_append, List.foldl] <;>
    split_ifs <;>
    simp_all [Values.set, Values.ofList, CodeChallengeMethod]

/-- A concrete client configuration used by witnesses. -/
def sampleClient : Client :=
  { clientID := "CID1", clientSecret := "SEC1", authURL := "https://www.fitbit.com/oauth2/authorize",
    tokenURL := "https://api.fitbit.com/oauth2/token", scopes := ["activity", "heartrate"],
    redirectURL := "", applicationType := ApplicationType.server, debugMode := false,
    updateTokenFunc := none }

theorem authCodeURL_params_witness :
    (AuthCodeURL sampleClient [83] [86] "https://app/callback").endpoint =
      sampleClient.authURL ∧
    (AuthCodeURL sampleClient [83] [86] "https://app/callback").params "client_id" =
      some sampleClient.clientID ∧
    (AuthCodeURL sampleClient [83] [86] "https://app/callback").params "response_type" =
      some "code" ∧
    (AuthCodeURL sampleClient [83] [86] "https://app/callback").params "scope" =
      some (String.intercalate " " sampleClient.scopes) ∧
    (AuthCodeURL sampleClient [83] [86] "https://app/callback").params "redirect_uri" =
      some "https://app/callback" ∧
    (AuthCodeURL sampleClient [83] [86] "https://app/callback").params "state" =
      some (AuthCodeURL sampleClient [83] [86] "https://app/callback").state ∧
    (AuthCodeURL sampleClient [83] [86] "https://app/callback").params "code_challenge" =
      some (authCodeChallenge [86]) ∧
    (AuthCodeURL sampleClient [83] [86] "https://app/callback").params "code_challenge_method" =
      some CodeChallengeMethod ∧
    (AuthCodeURL sampleClient [83] [86] "https://app/callback").state = stringOfBytes [83] ∧
    (AuthCodeURL sampleClient [83] [86] "https://app/callback").codeVerifier =
      stringOfBytes [86] :=
  authCodeURL_params sampleClient [83] [86] "https://app/callback"
    (by decide) (by simp [sampleClient])

/-- C1: when the token-endpoint request of a refresh succeeds but the
configured update hook rejects `(oldToken, newToken)`, the `Token()` call
returns the hook's error, the retained `lastToken` is unchanged, and a
subsequent `Token()` call sends the pre-refresh refresh token. -/
theorem refresher_hook_failure_rollback (c : Client)
    (retrieve : RefreshRequest → Except GoError Token) (lastToken newToken : Token)
    (hook : Token → Token → Option GoError) (e : GoError)
    (hhook : c.updateTokenFunc = some hook)
    (hret : retrieve (refreshRequest c lastToken) = .ok newToken)
    (herr : hook lastToken newToken = some e) :
    (tokenRefresherToken c retrieve lastToken).err = some e ∧
    (tokenRefresherToken c retrieve lastToken).result = none ∧
    (tokenRefresherToken c retrieve lastToken).lastToken = lastToken ∧
    (tokenRefresherToken c retrieve (tokenRefresherToken c retrieve lastToken).lastToken).requests.map
      (fun r => r.params "refresh_token") = [some lastToken.RefreshToken] := by
  have hout : tokenRefresherToken c retrieve lastToken =
      ⟨none, some e, lastToken, [refreshRequest c lastToken]⟩ := by
    simp [tokenRefresherToken, hret, hhook, herr]
  refine ⟨by simp [hout], by simp [hout], by simp [hout], ?_⟩
  rw [hout]
  simp only [tokenRefresherToken, hret, hhook, herr]
  simp [refreshRequest, Values.ofList]

/-- A pre-refresh token used by witnesses. -/
def sampleToken : Token :=
  { AccessToken := "AT0", TokenType := "Bearer", RefreshToken := "RT0", Expiry := 0 }

/-- The token the stub token endpoint issues in witnesses. -/
def sampleNewToken : Token :=
  { AccessToken := "AT1", TokenType := "Bearer", RefreshToken := "RT1", Expiry := 3600 }

/-- An update hook that always fails, for the hook-failure witness. -/
def failingHook : Token → Token → Option GoError :=
  fun _ _ => some (.errorString "persist failed")

/-- `sampleClient` with the failing update hook installed. -/
def hookFailClient : Client :=
  { sampleClient with updateTokenFunc := some failingHook }

/-- A stub `retrieveToken` whose request always succeeds with
`sampleNewToken`. -/
def okRetrieve : RefreshRequest → Except GoError Token :=
  fun _ => .ok sampleNewToken

theorem refresher_hook_failure_rollback_witness :
    (tokenRefresherToken hookFailClient okRetrieve sampleToken).err =
      some (.errorString "persist failed") ∧
    (tokenRefresherToken hookFailClient okRetrieve sampleToken).result = none ∧
    (tokenRefresherToken hookFailClient okRetrieve sampleToken).lastToken = sampleToken ∧
    (tokenRefresherToken hookFailClient okRetrieve
        (tokenRefresherToken hookFailClient okRetrieve sampleToken).lastToken).requests.map
      (fun r => r.params "refresh_token") = [some sampleToken.RefreshToken] :=
  refresher_hook_failure_rollback hookFailClient okRetrieve sampleToken sampleNewToken
    failingHook (.errorString "persist failed") rfl rfl rfl

/-- The update hook, if one is configured, accepts the transition. -/
def hookAccepts (c : Client) (oldToken newToken : Token) : Prop :=
  ∀ hook, c.updateTokenFunc = some hook → hook oldToken newToken = none

/-- C7: every `Token()` invocation issues exactly one token-endpoint
request, carrying `grant_type=refresh_token` and the retained token's
refresh token (shown for an arbitrary retriever `retrieveAny`); when the
request succeeds and the hook accepts (or none is configured), the
retained token becomes the newly issued token and that token is
returned. -/
theorem refresher_single_request_updates (c : Client)
    (retrieveAny retrieve : RefreshRequest → Except GoError Token)
    (lastToken newToken : Token)
    (hret : retrieve (refreshRequest c lastToken) = .ok newToken)
    (hhook : hookAccepts c lastToken newToken) :
    (tokenRefresherToken c retrieveAny lastToken).requests.map
      (fun r => (r.params "grant_type", r.params "refresh_token", r.tokenURL)) =
      [(some "refresh_token", some lastToken.RefreshToken, c.tokenURL)] ∧
    (tokenRefresherToken c retrieve lastToken).lastToken = newToken ∧
    (tokenRefresherToken c retrieve lastToken).result = some newToken.asOAuth2Token ∧
    (tokenRefresherToken c retrieve lastToken).err = none := by
  have hreq : ∀ r : RefreshRequest → Except GoError Token,
      (tokenRefresherToken c r lastToken).requests = [refreshRequest c lastToken] := by
    intro r
    cases hr : r (refreshRequest c lastToken) with
    | error e => simp [tokenRefresherToken, hr]
    | ok token =>
      cases hh : c.updateTokenFunc with
      | none => simp [tokenRefresherToken, hr, hh]
      | some hook =>
        cases hhk : hook lastToken token <;> simp [tokenRefresherToken, hr, hh, hhk]
  refine ⟨?_, ?_⟩
  · rw [hreq retrieveAny]
    simp [refreshRequest, Values.ofList]
  · cases hh : c.updateTokenFunc with
    | none => simp [tokenRefresherToken, hret, hh]
    | some hook => simp [tokenRefresherToken, hret, hh, hhook hook hh]

theorem refresher_single_request_updates_witness :
    (tokenRefresherToken sampleClient okRetrieve sampleToken).requests.map
      (fun r => (r.params "grant_type", r.params "refresh_token", r.tokenURL)) =
      [(some "refresh_token", some sampleToken.RefreshToken, sampleClient.tokenURL)] ∧
    (tokenRefresherToken sampleClient okRetrieve sampleToken).lastToken = sampleNewToken ∧
    (tokenRefresherToken sampleClient okRetrieve sampleToken).result =
      some sampleNewToken.asOAuth2Token ∧
    (tokenRefresherToken sampleClient okRetrieve sampleToken).err = none :=
  refresher_single_request_updates sampleClient okRetrieve okRetrieve sampleToken
    sampleNewToken rfl (by intro hook h; simp [sampleClient] at h)

/-- C2: when the exchange fails, `Link` returns a `nil` response and the
error wrapped with "fitbit(oauth2): cannot fetch token": the parsed
provider error when the failure is a retrieve error whose status and body
parse, and the original error otherwise. -/
theorem link_error_wrapping (c : Client) (exchange : Values → Except GoError OAuth2Token)
    (parse : Nat → String → Option ProviderError) (code codeVerifier reqURIString : String)
    (err : GoError)
    (hex : exchange (linkTokenRequest c code codeVerifier reqURIString) = .error err) :
    Link c exchange parse code codeVerifier reqURIString =
      .ret none (some (.wrapped "fitbit(oauth2): cannot fetch token"
        (match asRetrieveError err with
         | some (status, body) =>
           match parse status body with
           | some e => GoError.provider e
           | none => err
         | none => err))) := by
  cases hre : asRetrieveError err with
  | none => simp [Link, hex, hre]
  | some sb =>
    obtain ⟨status, body⟩ := sb
    cases hp : parse status body <;> simp [Link, hex, hre, hp]

/-- A stub exchange that fails with a provider-reported HTTP 400. -/
def errExchange : Values → Except GoError OAuth2Token :=
  fun _ => .error (.retrieveError 400 "invalid_grant body")

/-- A stub `parseError` that parses every HTTP 400 body. -/
def sampleParse : Nat → String → Option ProviderError :=
  fun status body => if status = 400 then some { code := "invalid_grant", description := body }
    else none

theorem link_error_wrapping_witness :
    Link sampleClient errExchange sampleParse "abc123" "Vxyz" "https://app/callback" =
      .ret none (some (.wrapped "fitbit(oauth2): cannot fetch token"
        (match asRetrieveError (.retrieveError 400 "invalid_grant body") with
         | some (status, body) =>
           match sampleParse status body with
           | some e => GoError.provider e
           | none => GoError.retrieveError 400 "invalid_grant body"
         | none => GoError.retrieveError 400 "invalid_grant body"))) :=
  link_error_wrapping sampleClient errExchange sampleParse "abc123" "Vxyz"
    "https://app/callback" (.retrieveError 400 "invalid_grant body") rfl

/-- C6: a successful exchange yields a `LinkResponse` whose `UserID` is the
`user_id` extra, whose `Scope` is the space-split of the `scope` extra, and
whose `Token` copies the access token, token type, refresh token and
expiry; splitting "activity heartrate" yields exactly those two members. -/
theorem link_success_mapping (c : Client) (exchange : Values → Except GoError OAuth2Token)
    (parse : Nat → String → Option ProviderError) (code codeVerifier reqURIString : String)
    (token : OAuth2Token) (uid sc : String)
    (hex : exchange (linkTokenRequest c code codeVerifier reqURIString) = .ok token)
    (huid : token.Extra "user_id" = some (.str uid))
    (hsc : token.Extra "scope" = some (.str sc)) :
    Link c exchange parse code codeVerifier reqURIString =
      .ret (some { UserID := uid, Scope := newScope (stringsSplitSpace sc),
                   Token := { AccessToken := token.AccessToken, TokenType := token.TokenType,
                              RefreshToken := token.RefreshToken, Expiry := token.Expiry } })
        none ∧
    newScope (stringsSplitSpace "activity heartrate") = ["activity", "heartrate"] := by
  constructor
  · simp [Link, hex, huid, hsc]
  · rfl

/-- The token the stub exchange endpoint of the success witness returns,
with the two extra fields the provider sends. -/
def sampleOAuthToken : OAuth2Token :=
  { AccessToken := "AT1", TokenType := "Bearer", RefreshToken := "RT1", Expiry := 3600,
    raw := [("user_id", .str "U1"), ("scope", .str "activity heartrate")] }

/-- A stub exchange that succeeds with `sampleOAuthToken`. -/
def okExchange : Values → Except GoError OAuth2Token :=
  fun _ => .ok sampleOAuthToken

theorem link_success_mapping_witness :
    Link sampleClient okExchange sampleParse "abc123" "Vxyz" "https://app/callback" =
      .ret (some { UserID := "U1", Scope := newScope (stringsSplitSpace "activity heartrate"),
                   Token := { AccessToken := sampleOAuthToken.AccessToken,
                              TokenType := sampleOAuthToken.TokenType,
                              RefreshToken := sampleOAuthToken.RefreshToken,
                              Expiry := sampleOAuthToken.Expiry } })
        none ∧
    newScope (stringsSplitSpace "activity heartrate") = ["activity", "heartrate"] :=
  link_success_mapping sampleClient okExchange sampleParse "abc123" "Vxyz"
    "https://app/callback" sampleOAuthToken "U1" "activity heartrate" rfl rfl rfl

/-- C9: when the exchange succeeds, `Link` panics (through the unchecked
type assertions) exactly when the `user_id` or the `scope` extra is not a
string value; the success path completes only when both are strings. -/
theorem link_panics_without_string_extras (c : Client)
    (exchange : Values → Except GoError OAuth2Token)
    (parse : Nat → String → Option ProviderError) (code codeVerifier reqURIString : String)
    (token : OAuth2Token)
    (hex : exchange (linkTokenRequest c code codeVerifier reqURIString) = .ok token) :
    Link c exchange parse code codeVerifier reqURIString = .panicked ↔
      (isStringVal (token.Extra "user_id") = false ∨
       isStringVal (token.Extra "scope") = false) := by
  rcases hu : token.Extra "user_id" with _ | u
  · simp [Link, hex, hu, isStringVal]
  · rcases hs : token.Extra "scope" with _ | s
    · cases u <;> simp [Link, hex, hu, hs, isStringVal]
    · cases u <;> cases s <;> simp [Link, hex, hu, hs, isStringVal]

/-- A token response with no extra fields at all, for the panic witness. -/
def noExtrasToken : OAuth2Token :=
  { AccessToken := "AT1", TokenType := "Bearer", RefreshToken := "RT1", Expiry := 3600,
    raw := [] }

/-- A stub exchange that succeeds with `noExtrasToken`. -/
def okExchangeNoExtras : Values → Except GoError OAuth2Token :=
  fun _ => .ok noExtrasToken

theorem link_panics_without_string_extras_witness :
    Link sampleClient okExchangeNoExtras sampleParse "abc123" "Vxyz" "https://app/callback" =
        .panicked ↔
      (isStringVal (noExtrasToken.Extra "user_id") = false ∨
       isStringVal (noExtrasToken.Extra "scope") = false) :=
  link_panics_without_string_extras sampleClient okExchangeNoExtras sampleParse "abc123"
    "Vxyz" "https://app/callback" noExtrasToken rfl

end Fitbit
